import Mathlib

/-!
Shallow embedding of the member-data synchronization pipeline of the
`beanbot` repository (`src/cogs/member_sync.py`), together with proofs of
the specification's claims about it.

The pipeline: `get_all_roles` (Role Catalog Builder), `get_member_data`
(Member Record Extractor), the row/header preparation inside
`write_member_data` (Tabular Projector), `clear_sheet` plus the values
update call (Sheet Writer), and the `sync_members` command (Sync
Orchestrator).  External state (the Google spreadsheet) is modelled as an
explicit value threaded through the functions; the ambient current time
(`datetime.now(timezone.utc)`) is passed as an explicit `now` parameter,
and timestamps are integer epoch seconds.
-/

namespace BeanBot

/-- Name of the implicit everyone role, exactly as the source compares it:
the literal string `"@everyone"` (lines 50, 86, 89 of member_sync.py). -/
def everyoneMarker : String := "@everyone"

/-- A guild role: opaque identifier plus display name. -/
structure Role where
  id : Nat
  name : String
deriving DecidableEq, Repr

/-- A guild member, with exactly the attributes `get_member_data` reads.
`username` stands for `str(member)`, `topRole` for `member.top_role`
(provided by the platform), timestamps are epoch seconds, `joinedAt` is
nullable as `member.joined_at` is, `status` is `str(member.status)` with
`"offline"` the offline state, and `avatarUrl` is `none` when the member
has no avatar. -/
structure Member where
  id : Nat
  username : String
  displayName : String
  discriminator : String
  nick : Option String
  bot : Bool
  roles : List Role
  topRole : Role
  createdAt : Int
  joinedAt : Option Int
  status : String
  avatarUrl : Option String
deriving DecidableEq, Repr

/-- A guild: its role list and its (fully chunked) member list. -/
structure Guild where
  roles : List Role
  members : List Member
deriving DecidableEq, Repr

/-- Embedding of `get_all_roles` (member_sync.py lines 46-52): collect the
name of every role whose name is not `"@everyone"`, then sort.  Python's
`sorted` builtin is modelled by `List.insertionSort (· ≤ ·)`; both sort
ascending by ordinal string comparison. -/
def get_all_roles (roles : List Role) : List String :=
  List.insertionSort (· ≤ ·)
    ((roles.filter (fun r => r.name ≠ everyoneMarker)).map Role.name)

/-- Embedding of Python's `(a - b).days` on timezone-aware datetimes:
`timedelta.days` is the floor of the difference in seconds divided by
86400. -/
def timedeltaDays (a b : Int) : Int := Int.fdiv (a - b) 86400

/-- Stand-in for `datetime.strftime('%Y-%m-%d %H:%M:%S')`: an abstract
rendering of the epoch-second timestamp.  No claim inspects the format
itself, only which branch (timestamp present/absent) produced the cell. -/
def fmtTimestamp (t : Int) : String := toString t

/-- The per-member dictionary built by the loop body of `get_member_data`
(member_sync.py lines 114-133): the fifteen base fields plus the
`role_{name} → "Yes"/"No"` columns, the latter kept as an association
list mirroring the Python dict. -/
structure MemberInfo where
  username : String
  display_name : String
  user_id : String
  discriminator : String
  nickname : String
  roles : String
  highest_role : String
  account_created : String
  account_age_days : Int
  joined_server : String
  server_age_days : Int
  status : String
  is_online : Bool
  avatar_url : String
  last_synced : String
  roleColumns : List (String × String)
deriving DecidableEq, Repr

/-- Loop body of `get_member_data` (member_sync.py lines 85-133) for one
non-bot member: role names excluding `"@everyone"`, highest role with the
`"Member"` substitution, whole-day ages against `now`, `"Unknown"` joined
display when the join timestamp is absent, and one `role_{name}` column
per catalog entry holding `"Yes"` iff the member holds that name. -/
def buildMemberInfo (all_roles : List String) (now : Int) (m : Member) :
    MemberInfo :=
  let member_roles :=
    (m.roles.filter (fun r => r.name ≠ everyoneMarker)).map Role.name
  { username := m.username
    display_name := m.displayName
    user_id := toString m.id
    discriminator := m.discriminator
    nickname := m.nick.getD ""
    roles := if member_roles.isEmpty then "None"
             else String.intercalate ", " member_roles
    highest_role := if m.topRole.name ≠ everyoneMarker then m.topRole.name
                    else "Member"
    account_created := fmtTimestamp m.createdAt
    account_age_days := timedeltaDays now m.createdAt
    joined_server := match m.joinedAt with
                     | some j => fmtTimestamp j
                     | none => "Unknown"
    server_age_days := match m.joinedAt with
                       | some j => timedeltaDays now j
                       | none => 0
    status := m.status
    is_online := m.status != "offline"
    avatar_url := m.avatarUrl.getD "No Avatar"
    last_synced := fmtTimestamp now
    roleColumns := all_roles.map (fun rn =>
      ("role_" ++ rn, if rn ∈ member_roles then "Yes" else "No")) }

/-- Embedding of `get_member_data` (member_sync.py lines 54-138): compute
the role catalog, then build one record per member of the guild in
iteration order, skipping members flagged as bots; returns the records
together with the catalog. -/
def get_member_data (g : Guild) (now : Int) :
    List MemberInfo × List String :=
  let all_roles := get_all_roles g.roles
  ((g.members.filter (fun m => !m.bot)).map (buildMemberInfo all_roles now),
    all_roles)

/-- A spreadsheet cell value: the grids written by the pipeline mix
strings and integers (the two age columns). -/
inductive Cell where
  | s (v : String)
  | n (v : Int)
deriving DecidableEq, Repr

/-- A single sheet's contents: a partial assignment of cell values to
(0-based row, 0-based column) coordinates. -/
def Sheet := Nat → Nat → Option Cell

/-- The value a grid, anchored at the top-left cell A1, puts at
(row, column) — `none` outside the grid. -/
def gridCell (grid : List (List Cell)) (r c : Nat) : Option Cell :=
  (grid.get? r).bind (fun row => row.get? c)

/-- Effect on a sheet of the source's clear call, which clears the range
`"{sheet_name}!A:Z"` (member_sync.py line 160): every cell in columns A
through Z — 0-based columns 0..25 — of every row is erased; columns
beyond Z are untouched. -/
def clearAtoZ (sh : Sheet) : Sheet := fun r c => if c < 26 then none else sh r c

/-- Effect on a sheet of the source's values-update call at range
`"{sheet_name}!A1"` with RAW input (member_sync.py lines 220-228): each
cell covered by the grid is overwritten verbatim; cells not covered keep
their prior values. -/
def updateAtA1 (grid : List (List Cell)) (sh : Sheet) : Sheet :=
  fun r c => match gridCell grid r c with
             | some v => some v
             | none => sh r c

/-- The Sheet Writer's clear-then-write on one sheet, as performed by
`write_member_data` (clear at line 217, update at lines 223-228). -/
def clearThenWrite (grid : List (List Cell)) (sh : Sheet) : Sheet :=
  updateAtA1 grid (clearAtoZ sh)

/-- The destination spreadsheet: titled sheets in order. -/
structure Spreadsheet where
  sheets : List (String × Sheet)

/-- Error raised by `clear_sheet` when no sheet carries the requested
title (member_sync.py line 155, `ValueError(f"Sheet ... not found")`). -/
inductive SheetError where
  | notFound (name : String)
deriving DecidableEq, Repr

/-- Apply a transformation to every sheet whose title matches `name`,
leaving all other sheets untouched. -/
def updateSheet (name : String) (f : Sheet → Sheet) (sp : Spreadsheet) :
    Spreadsheet :=
  ⟨sp.sheets.map (fun p => if p.1 = name then (p.1, f p.2) else p)⟩

/-- Embedding of `clear_sheet` (member_sync.py lines 140-167): look the
sheet up by title in the spreadsheet metadata; if absent, fail with
NotFound before issuing any clear; otherwise clear the named sheet's
columns A through Z.  The raised error is re-raised (propagated), never
retried. -/
def clear_sheet (sp : Spreadsheet) (sheet_name : String) :
    Except SheetError Spreadsheet :=
  if sp.sheets.any (fun p => p.1 == sheet_name) then
    .ok (updateSheet sheet_name clearAtoZ sp)
  else
    .error (.notFound sheet_name)

/-- The fixed base column labels of `write_member_data`
(member_sync.py lines 176-181). -/
def base_headers : List String :=
  ["Username", "Display Name", "User ID", "Discriminator", "Nickname",
   "Roles", "Highest Role", "Account Created", "Account Age (Days)",
   "Joined Server", "Server Age (Days)", "Status", "Is Online",
   "Avatar URL", "Last Synced"]

/-- Header row: base labels then one `"Role: {name}"` label per catalog
entry (member_sync.py lines 184-185). -/
def headerRow (all_roles : List String) : List Cell :=
  (base_headers ++ all_roles.map (fun r => "Role: " ++ r)).map Cell.s

/-- The fifteen base cells of one data row, in the fixed order of
`base_row` (member_sync.py lines 191-207). -/
def baseRow (info : MemberInfo) : List Cell :=
  [Cell.s info.username, Cell.s info.display_name, Cell.s info.user_id,
   Cell.s info.discriminator, Cell.s info.nickname, Cell.s info.roles,
   Cell.s info.highest_role, Cell.s info.account_created,
   Cell.n info.account_age_days, Cell.s info.joined_server,
   Cell.n info.server_age_days, Cell.s info.status,
   Cell.s (if info.is_online then "Yes" else "No"),
   Cell.s info.avatar_url, Cell.s info.last_synced]

/-- One data row (member_sync.py lines 189-214): the fifteen base cells
in fixed order, then `member.get(f"role_{role}", "No")` for each catalog
entry in catalog order. -/
def memberRow (all_roles : List String) (info : MemberInfo) : List Cell :=
  baseRow info
  ++ all_roles.map (fun r =>
       Cell.s (((info.roleColumns.lookup ("role_" ++ r)).getD "No")))

/-- The full grid `data_rows`: header row then one row per record. -/
def dataRows (members_data : List MemberInfo) (all_roles : List String) :
    List (List Cell) :=
  headerRow all_roles :: members_data.map (memberRow all_roles)

/-- Embedding of `write_member_data` (member_sync.py lines 169-235):
project the records into the grid, clear the named sheet (propagating a
NotFound failure, in which case nothing is written), then write the grid
at A1 of the named sheet; returns the updated spreadsheet and the number
of members written. -/
def write_member_data (sp : Spreadsheet) (members_data : List MemberInfo)
    (all_roles : List String) (sheet_name : String) :
    Except SheetError (Spreadsheet × Nat) :=
  match clear_sheet sp sheet_name with
  | .error e => .error e
  | .ok sp1 =>
      .ok (updateSheet sheet_name (updateAtA1 (dataRows members_data all_roles)) sp1,
           members_data.length)

/-- Outcome of one `sync_members` invocation as observed by the caller:
the early-return "No human members found to sync" message, the success
embed (members synced, role-column count, sheet name), or the
"Sync failed" message produced by the catch-all handler. -/
inductive SyncOutcome where
  | nothingToSync
  | success (memberCount : Nat) (roleCount : Nat) (sheet : String)
  | failure (e : SheetError)
deriving DecidableEq, Repr

/-- Embedding of the `sync_members` command body (member_sync.py lines
256-307): collect the member data; if no records were produced, report
the distinct "nothing to sync" signal without touching the sheet; else
write and report the success embed; any error during the write leaves the
spreadsheet as the failed write left it (here: unchanged, since the only
modelled failure happens before any mutation) and reports a failure. -/
def sync_members (g : Guild) (sp : Spreadsheet) (now : Int)
    (sheet_name : String := "Benji") : Spreadsheet × SyncOutcome :=
  let md := get_member_data g now
  if md.1.isEmpty then (sp, .nothingToSync)
  else
    match write_member_data sp md.1 md.2 sheet_name with
    | .error e => (sp, .failure e)
    | .ok (sp1, count) => (sp1, .success count md.2.length sheet_name)

/-- The external state a sync invocation can read or write: the guild on
the chat platform and the destination spreadsheet. -/
structure WorldState where
  guild : Guild
  spreadsheet : Spreadsheet

/-- One sync invocation as a transition on the external world: the
pipeline reads the guild and updates only the spreadsheet — the source
issues no guild-mutating call anywhere in lines 54-307. -/
def sync_world (w : WorldState) (now : Int) (sheet_name : String) :
    WorldState × SyncOutcome :=
  let r := sync_members w.guild w.spreadsheet now sheet_name
  ({ w with spreadsheet := r.1 }, r.2)

/-! ## Helper lemmas -/

/-- Left cancellation for string concatenation. -/
theorem string_append_left_cancel {p a b : String} (h : p ++ a = p ++ b) :
    a = b := by
  have hd : p.data ++ a.data = p.data ++ b.data := by
    simpa [String.data_append] using congrArg String.data h
  exact String.ext (List.append_cancel_left hd)

/-! ## C3: Role Catalog Builder -/

/-- C3: for every input role list R, the Role Catalog Builder outputs the
display names of R excluding the role named `"@everyone"`, sorted
ascending by ordinal string comparison; the output never contains the
everyone marker, and it is invariant under any permutation of R. -/
theorem role_catalog_spec (R R' : List Role) :
    everyoneMarker ∉ get_all_roles R ∧
    List.Sorted (· ≤ ·) (get_all_roles R) ∧
    (get_all_roles R).Perm
      ((R.filter (fun r => r.name ≠ everyoneMarker)).map Role.name) ∧
    (R.Perm R' → get_all_roles R = get_all_roles R') := by
  refine ⟨?_, ?_, ?_, ?_⟩
  · intro hmem
    rw [get_all_roles, List.mem_insertionSort] at hmem
    simp only [List.mem_map, List.mem_filter, decide_eq_true_eq] at hmem
    obtain ⟨r, ⟨_, hne⟩, hname⟩ := hmem
    exact hne hname
  · exact List.sorted_insertionSort _ _
  · exact List.perm_insertionSort _ _
  · intro hp
    refine List.eq_of_perm_of_sorted ?_ (List.sorted_insertionSort _ _)
      (List.sorted_insertionSort _ _)
    exact (List.perm_insertionSort _ _).trans
      (((hp.filter _).map Role.name).trans
        (List.perm_insertionSort _ _).symm)

/-- Witness for C3 at a concrete role list and a shuffle of it. -/
theorem role_catalog_spec_witness :
    ([⟨1, "B"⟩, ⟨2, "@everyone"⟩, ⟨3, "A"⟩] : List Role).Perm
      [⟨3, "A"⟩, ⟨1, "B"⟩, ⟨2, "@everyone"⟩] ∧
    get_all_roles [⟨1, "B"⟩, ⟨2, "@everyone"⟩, ⟨3, "A"⟩]
      = get_all_roles [⟨3, "A"⟩, ⟨1, "B"⟩, ⟨2, "@everyone"⟩] :=
  ⟨by decide,
   (role_catalog_spec [⟨1, "B"⟩, ⟨2, "@everyone"⟩, ⟨3, "A"⟩]
      [⟨3, "A"⟩, ⟨1, "B"⟩, ⟨2, "@everyone"⟩]).2.2.2 (by decide)⟩

/-! ## C9: catalog de-duplication -/

/-- C9 counterexample: two distinct roles sharing the display name `"A"`
produce a catalog with a duplicate entry — `get_all_roles` never
de-duplicates. -/
theorem role_catalog_dup_cex :
    get_all_roles [⟨1, "A"⟩, ⟨2, "A"⟩] = ["A", "A"] ∧
    ¬ (get_all_roles [⟨1, "A"⟩, ⟨2, "A"⟩]).Nodup := by
  have h : get_all_roles [⟨1, "A"⟩, ⟨2, "A"⟩] = ["A", "A"] := by
    show List.insertionSort (· ≤ ·) ["A", "A"] = ["A", "A"]
    simp [List.insertionSort, List.orderedInsert]
  refine ⟨h, ?_⟩
  rw [h]
  simp

/-- C9 (amended): the Role Catalog contains no duplicate entries provided
the input roles' display names (outside the everyone role) are pairwise
distinct — the platform-uniqueness premise; the builder itself performs
no de-duplication. -/
theorem role_catalog_nodup_of_unique (R : List Role)
    (h : ((R.filter (fun r => r.name ≠ everyoneMarker)).map Role.name).Nodup) :
    (get_all_roles R).Nodup := by
  rw [get_all_roles]
  exact (List.perm_insertionSort _ _).nodup_iff.mpr h

/-- Witness for the amended C9 at a concrete role list. -/
theorem role_catalog_nodup_of_unique_witness :
    (((([⟨1, "B"⟩, ⟨2, "@everyone"⟩, ⟨3, "A"⟩] : List Role).filter
        (fun r => r.name ≠ everyoneMarker)).map Role.name).Nodup) ∧
    (get_all_roles [⟨1, "B"⟩, ⟨2, "@everyone"⟩, ⟨3, "A"⟩]).Nodup :=
  ⟨by decide,
   role_catalog_nodup_of_unique [⟨1, "B"⟩, ⟨2, "@everyone"⟩, ⟨3, "A"⟩]
     (by decide)⟩

/-! ## C4: highest role substitution -/

/-- C4: the record's highest-role field equals the member's top role's
display name, except that when that name is the everyone marker the field
is the literal string `"Member"`. -/
theorem highest_role_spec (all_roles : List String) (now : Int) (m : Member) :
    (m.topRole.name ≠ everyoneMarker →
      (buildMemberInfo all_roles now m).highest_role = m.topRole.name) ∧
    (m.topRole.name = everyoneMarker →
      (buildMemberInfo all_roles now m).highest_role = "Member") := by
  constructor <;> intro h <;> simp [buildMemberInfo, h]

/-- Member whose top role is the everyone role (Scenario E). -/
def memberE : Member :=
  { id := 5, username := "eve#0001", displayName := "Eve",
    discriminator := "0001", nick := none, bot := false,
    roles := [⟨0, "@everyone"⟩], topRole := ⟨0, "@everyone"⟩,
    createdAt := 0, joinedAt := some 86400, status := "online",
    avatarUrl := none }

/-- Witness for C4: Scenario E, a member whose top role is named
`"@everyone"` gets highest-role `"Member"`. -/
theorem highest_role_spec_witness :
    memberE.topRole.name = everyoneMarker ∧
    (buildMemberInfo [] 0 memberE).highest_role = "Member" :=
  ⟨rfl, (highest_role_spec [] 0 memberE).2 rfl⟩

/-! ## C6: membership age -/

/-- C6: when the join timestamp is absent the record's membership-age
field is 0 and the displayed joined field is `"Unknown"`; when it is
present, the membership age is the whole-day delta between `now` and the
join time. -/
theorem membership_age_spec (all_roles : List String) (now : Int)
    (m : Member) :
    (m.joinedAt = none →
      (buildMemberInfo all_roles now m).server_age_days = 0 ∧
      (buildMemberInfo all_roles now m).joined_server = "Unknown") ∧
    (∀ j, m.joinedAt = some j →
      (buildMemberInfo all_roles now m).server_age_days
        = timedeltaDays now j) := by
  refine ⟨fun h => ?_, fun j h => ?_⟩ <;> simp [buildMemberInfo, h]

/-- Member with no recorded join timestamp (Scenario C). -/
def memberC : Member :=
  { id := 6, username := "carol#0002", displayName := "Carol",
    discriminator := "0002", nick := none, bot := false,
    roles := [⟨0, "@everyone"⟩], topRole := ⟨0, "@everyone"⟩,
    createdAt := 0, joinedAt := none, status := "offline",
    avatarUrl := none }

/-- Witness for C6: Scenario C, a member with no join timestamp gets
membership age 0 and joined display `"Unknown"`. -/
theorem membership_age_spec_witness :
    memberC.joinedAt = none ∧
    (buildMemberInfo [] 0 memberC).server_age_days = 0 ∧
    (buildMemberInfo [] 0 memberC).joined_server = "Unknown" :=
  ⟨rfl, (membership_age_spec [] 0 memberC).1 rfl⟩

/-! ## C2: per-role Yes/No cells -/

/-- Looking up `"role_" ++ rn` in the association list built by mapping
`x ↦ ("role_" ++ x, f x)` over a catalog containing `rn` yields
`some (f rn)`. -/
theorem lookup_map_roleColumns (f : String → String) (rn : String) :
    ∀ (catalog : List String), rn ∈ catalog →
      (catalog.map (fun x => ("role_" ++ x, f x))).lookup ("role_" ++ rn)
        = some (f rn) := by
  intro catalog
  induction catalog with
  | nil => intro h; cases h
  | cons a t ih =>
    intro hmem
    by_cases hra : ("role_" ++ rn : String) = "role_" ++ a
    · have ha : rn = a := string_append_left_cancel hra
      subst ha
      simp [List.lookup_cons]
    · have hne : rn ≠ a := fun h => hra (by rw [h])
      have hmt : rn ∈ t := by
        rcases List.mem_cons.mp hmem with h | h
        · exact absurd h hne
        · exact h
      rw [List.map_cons, List.lookup_cons]
      have hbeq : (("role_" ++ rn : String) == "role_" ++ a) = false := by
        simp [hra]
      rw [hbeq]
      exact ih hmt

/-- Membership in the member's filtered role-name list agrees with
membership in the full role-name list for any name other than the
everyone marker. -/
theorem mem_memberRoles_iff (m : Member) {rn : String}
    (h : rn ≠ everyoneMarker) :
    (rn ∈ (m.roles.filter (fun r => r.name ≠ everyoneMarker)).map Role.name)
      ↔ rn ∈ m.roles.map Role.name := by
  simp only [List.mem_map, List.mem_filter, decide_eq_true_eq]
  constructor
  · rintro ⟨r, ⟨hr, _⟩, rfl⟩
    exact ⟨r, hr, rfl⟩
  · rintro ⟨r, hr, rfl⟩
    exact ⟨r, ⟨hr, h⟩, rfl⟩

/-- C2: each data row carries, after the fifteen base cells, exactly one
`"Yes"`/`"No"` cell per Role Catalog entry in catalog order, and that
cell is `"Yes"` iff the member's role-name set contains that exact
display name. -/
theorem role_cells_spec (catalog : List String)
    (hcat : everyoneMarker ∉ catalog) (now : Int) (m : Member) :
    (memberRow catalog (buildMemberInfo catalog now m)).length
        = 15 + catalog.length ∧
    (memberRow catalog (buildMemberInfo catalog now m)).drop 15
        = catalog.map (fun rn =>
            Cell.s (if rn ∈ m.roles.map Role.name then "Yes" else "No")) := by
  constructor
  · simp [memberRow, baseRow]
    omega
  · rw [memberRow, List.drop_left'
      (show (baseRow (buildMemberInfo catalog now m)).length = 15 from rfl)]
    apply List.map_congr_left
    intro rn hrn
    have hne : rn ≠ everyoneMarker := fun h => hcat (h ▸ hrn)
    have hcols : (buildMemberInfo catalog now m).roleColumns
        = catalog.map (fun x => ("role_" ++ x,
            if x ∈ (m.roles.filter
                (fun r => r.name ≠ everyoneMarker)).map Role.name
            then "Yes" else "No")) := rfl
    rw [hcols, lookup_map_roleColumns _ rn catalog hrn, Option.getD_some]
    rw [if_congr (mem_memberRoles_iff m hne) rfl rfl]

/-- Human member holding exactly the custom role `"Member"`
(Scenario A). -/
def memberA : Member :=
  { id := 7, username := "alice#0003", displayName := "Alice",
    discriminator := "0003", nick := none, bot := false,
    roles := [⟨0, "@everyone"⟩, ⟨9, "Member"⟩], topRole := ⟨9, "Member"⟩,
    createdAt := 0, joinedAt := some 0, status := "online",
    avatarUrl := none }

/-- Witness for C2: Scenario A — catalog `["Admin", "Member"]` and a
member holding exactly `{"Member"}` produce the role cells
`["No", "Yes"]`. -/
theorem role_cells_spec_witness :
    everyoneMarker ∉ (["Admin", "Member"] : List String) ∧
    (memberRow ["Admin", "Member"]
        (buildMemberInfo ["Admin", "Member"] 0 memberA)).drop 15
      = [Cell.s "No", Cell.s "Yes"] := by
  refine ⟨by decide, ?_⟩
  rw [(role_cells_spec ["Admin", "Member"] (by decide) 0 memberA).2]
  decide

/-! ## C5: bot filtering -/

/-- Counting, inside `l.filter p`, the elements sharing a key with a
designated element `m` of a key-distinct list `l`: the count is 1 when
`p m` holds and 0 otherwise. -/
theorem countP_key_filter (k : Member → String) (p : Member → Bool) :
    ∀ (l : List Member), (l.map k).Nodup → ∀ m ∈ l,
      (l.filter p).countP (fun x => k x == k m) = if p m then 1 else 0 := by
  intro l
  induction l with
  | nil => intro _ m hm; cases hm
  | cons a t ih =>
    intro hnd m hm
    rw [List.map_cons, List.nodup_cons] at hnd
    rcases List.mem_cons.mp hm with rfl | hmt
    · have hzero : (t.filter p).countP (fun x => k x == k m) = 0 := by
        rw [List.countP_eq_zero]
        intro x hx
        have hxt : x ∈ t := (List.mem_filter.mp hx).1
        simp only [beq_iff_eq]
        intro hk
        exact hnd.1 (hk ▸ List.mem_map_of_mem k hxt)
      cases hpa : p m
      · simp [List.filter_cons, hpa, hzero]
      · simp [List.filter_cons, hpa, List.countP_cons, hzero]
    · have hne : k a ≠ k m := fun h => hnd.1 (h ▸ List.mem_map_of_mem k hmt)
      have hrec := ih hnd.2 m hmt
      cases hpa : p a
      · simp [List.filter_cons, hpa, hrec]
      · simp [List.filter_cons, hpa, List.countP_cons, hne, hrec]

/-- Splitting a member list's length into bots and non-bots. -/
theorem length_filter_not_bot (l : List Member) :
    (l.filter (fun m => !m.bot)).length
      = l.length - (l.filter (fun m => m.bot)).length := by
  induction l with
  | nil => rfl
  | cons a t ih =>
    have hle := List.length_filter_le (fun m : Member => m.bot) t
    cases h : a.bot
    · simp [List.filter_cons, h, ih]
      omega
    · simp [List.filter_cons, h, ih]

/-- C5: no bot-flagged member yields a record, every non-bot member
yields exactly one record in the member list's iteration order, and the
record count is the member count minus the bot count.  Records are
identified by their user-id field; the hypothesis is the platform
guarantee that member ids are distinct. -/
theorem bot_filter_spec (g : Guild) (now : Int)
    (hnd : (g.members.map (fun m => toString m.id)).Nodup) :
    ((get_member_data g now).1.length
        = g.members.length - (g.members.filter (fun m => m.bot)).length) ∧
    ((get_member_data g now).1.map (fun r => r.user_id)
        = (g.members.filter (fun m => !m.bot)).map (fun m => toString m.id)) ∧
    (∀ m ∈ g.members, m.bot = true →
      (get_member_data g now).1.countP
          (fun r => r.user_id == toString m.id) = 0) ∧
    (∀ m ∈ g.members, m.bot = false →
      (get_member_data g now).1.countP
          (fun r => r.user_id == toString m.id) = 1) := by
  have hrec : (get_member_data g now).1
      = (g.members.filter (fun m => !m.bot)).map
          (buildMemberInfo (get_all_roles g.roles) now) := rfl
  refine ⟨?_, ?_, ?_, ?_⟩
  · rw [hrec, List.length_map, length_filter_not_bot]
  · rw [hrec, List.map_map]
    rfl
  · intro m hm hbot
    rw [hrec, List.countP_map]
    have h := countP_key_filter (fun x => toString x.id) (fun x => !x.bot)
      g.members hnd m hm
    simp only [hbot] at h
    simpa using h
  · intro m hm hbot
    rw [hrec, List.countP_map]
    have h := countP_key_filter (fun x => toString x.id) (fun x => !x.bot)
      g.members hnd m hm
    simp only [hbot] at h
    simpa using h

/-- Bot-flagged member. -/
def botMember : Member :=
  { id := 1, username := "bot#0000", displayName := "Bot",
    discriminator := "0000", nick := none, bot := true,
    roles := [⟨0, "@everyone"⟩], topRole := ⟨0, "@everyone"⟩,
    createdAt := 0, joinedAt := some 0, status := "online",
    avatarUrl := none }

/-- Guild with one bot and one human member. -/
def guild0 : Guild := { roles := [], members := [botMember, memberE] }

/-- Witness for C5 at a concrete two-member guild (one bot, one
human). -/
theorem bot_filter_spec_witness :
    ((guild0.members.map (fun m => toString m.id)).Nodup) ∧
    (((get_member_data guild0 0).1.length
        = guild0.members.length
            - (guild0.members.filter (fun m => m.bot)).length) ∧
     ((get_member_data guild0 0).1.map (fun r => r.user_id)
        = (guild0.members.filter (fun m => !m.bot)).map
            (fun m => toString m.id)) ∧
     (∀ m ∈ guild0.members, m.bot = true →
       (get_member_data guild0 0).1.countP
           (fun r => r.user_id == toString m.id) = 0) ∧
     (∀ m ∈ guild0.members, m.bot = false →
       (get_member_data guild0 0).1.countP
           (fun r => r.user_id == toString m.id) = 1)) :=
  ⟨by decide, bot_filter_spec guild0 0 (by decide)⟩

/-! ## C1: full-replace write -/

/-- A grid all of whose rows fit in 26 columns has no cell beyond
column Z. -/
theorem gridCell_eq_none_of_width (grid : List (List Cell))
    (hw : ∀ row ∈ grid, row.length ≤ 26) {c : Nat} (hc : 26 ≤ c) (r : Nat) :
    gridCell grid r c = none := by
  unfold gridCell
  cases hr : grid.get? r with
  | none => rfl
  | some row =>
    show row.get? c = none
    exact List.get?_eq_none.mpr (Nat.le_trans (hw row (List.get?_mem hr)) hc)

/-- The everywhere-empty sheet. -/
def emptySheet : Sheet := fun _ _ => none

/-- C1 counterexample: the clear call only covers columns A through Z, so
writing a 27-column grid G1 and then the one-cell grid G2 leaves G1's
27th-column cell on the sheet — residue in a column G1 populated but G2
does not. -/
theorem clear_write_residue_cex :
    clearThenWrite [[Cell.s "A"]]
        (clearThenWrite [List.replicate 27 (Cell.s "X")] emptySheet) 0 26
      = some (Cell.s "X") ∧
    gridCell [[Cell.s "A"]] 0 26 = none ∧
    clearThenWrite [[Cell.s "A"]]
        (clearThenWrite [List.replicate 27 (Cell.s "X")] emptySheet) 0 26
      ≠ gridCell [[Cell.s "A"]] 0 26 := by
  refine ⟨rfl, rfl, ?_⟩
  decide

/-- C1 (amended): clear-then-write with G1 and then with G2 leaves the
sheet containing exactly G2's cells and nothing else, provided each
grid's rows fit within the cleared columns A through Z and the prior
sheet state holds nothing beyond column Z. -/
theorem full_replace_within_AtoZ (sh : Sheet) (g1 g2 : List (List Cell))
    (h1 : ∀ row ∈ g1, row.length ≤ 26) (h2 : ∀ row ∈ g2, row.length ≤ 26)
    (hsh : ∀ r c, 26 ≤ c → sh r c = none) :
    ∀ r c, clearThenWrite g2 (clearThenWrite g1 sh) r c = gridCell g2 r c := by
  intro r c
  simp only [clearThenWrite, updateAtA1, clearAtoZ]
  by_cases hc : c < 26
  · cases hg2 : gridCell g2 r c <;> simp [hg2, hc]
  · have hcc : 26 ≤ c := Nat.le_of_not_lt hc
    rw [gridCell_eq_none_of_width g2 h2 hcc r,
        gridCell_eq_none_of_width g1 h1 hcc r]
    simp [hc, hsh r c hcc]

/-- Witness for the amended C1 at concrete narrow grids over the empty
sheet. -/
theorem full_replace_within_AtoZ_witness :
    (∀ row ∈ [[Cell.s "X", Cell.s "Y"]], List.length row ≤ 26) ∧
    (∀ row ∈ [[Cell.s "A"]], List.length row ≤ 26) ∧
    (∀ r c, 26 ≤ c → emptySheet r c = none) ∧
    (∀ r c, clearThenWrite [[Cell.s "A"]]
        (clearThenWrite [[Cell.s "X", Cell.s "Y"]] emptySheet) r c
      = gridCell [[Cell.s "A"]] r c) :=
  ⟨by decide, by decide, fun _ _ _ => rfl,
   full_replace_within_AtoZ emptySheet [[Cell.s "X", Cell.s "Y"]]
     [[Cell.s "A"]] (by decide) (by decide) (fun _ _ _ => rfl)⟩

/-! ## C7: missing destination sheet -/

/-- C7: when no sheet of the destination spreadsheet carries the
requested title, `clear_sheet` fails with NotFound before any clear,
`write_member_data` propagates that same error without writing, and the
orchestrator leaves the spreadsheet unchanged. -/
theorem sheet_not_found_spec (sp : Spreadsheet) (sheet_name : String)
    (h : ∀ p ∈ sp.sheets, p.1 ≠ sheet_name) :
    clear_sheet sp sheet_name = .error (.notFound sheet_name) ∧
    (∀ md roles, write_member_data sp md roles sheet_name
        = .error (.notFound sheet_name)) ∧
    (∀ g now, (sync_members g sp now sheet_name).1 = sp) := by
  have hany : (sp.sheets.any (fun p => p.1 == sheet_name)) = false := by
    rw [List.any_eq_false]
    intro p hp
    simpa using h p hp
  have hclear : clear_sheet sp sheet_name = .error (.notFound sheet_name) := by
    simp [clear_sheet, hany]
  refine ⟨hclear, fun md roles => ?_, fun g now => ?_⟩
  · rw [write_member_data, hclear]
  · simp only [sync_members, write_member_data, hclear]
    split <;> rfl

/-- Spreadsheet whose only sheet is titled "Other". -/
def sheetOther : Spreadsheet := ⟨[("Other", emptySheet)]⟩

/-- Witness for C7: Scenario D at a concrete spreadsheet lacking the
"Benji" sheet. -/
theorem sheet_not_found_spec_witness :
    (∀ p ∈ sheetOther.sheets, p.1 ≠ "Benji") ∧
    (clear_sheet sheetOther "Benji" = .error (.notFound "Benji") ∧
     (∀ md roles, write_member_data sheetOther md roles "Benji"
        = .error (.notFound "Benji")) ∧
     (∀ g now, (sync_members g sheetOther now "Benji").1 = sheetOther)) :=
  ⟨fun p hp => by
      rcases List.mem_singleton.mp hp with rfl
      decide,
   sheet_not_found_spec sheetOther "Benji" (fun p hp => by
      rcases List.mem_singleton.mp hp with rfl
      decide)⟩

/-! ## C8: zero human members -/

/-- Spreadsheet whose only sheet is titled "Benji". -/
def sheetBenji : Spreadsheet := ⟨[("Benji", emptySheet)]⟩

/-- Guild whose only member is a bot. -/
def guildBots : Guild := { roles := [], members := [botMember] }

/-- C8 counterexample: with every member a bot, the command yields the
early-return "nothing to sync" outcome; it does not produce a success
outcome carrying a SyncResult of count 0 — no SyncResult is built at
all on that path. -/
theorem nothing_to_sync_cex :
    (sync_members guildBots sheetBenji 0 "Benji").2
        = SyncOutcome.nothingToSync ∧
    (sync_members guildBots sheetBenji 0 "Benji").2
        ≠ SyncOutcome.success 0 0 "Benji" := by
  refine ⟨rfl, ?_⟩
  decide

/-- C8 (amended): a sync over a member list with zero non-bot members is
the distinct "nothing to sync" outcome — not a Failure — and neither
clears nor writes the destination sheet (the spreadsheet is returned
unchanged); no SyncResult is produced. -/
theorem nothing_to_sync_spec (g : Guild) (sp : Spreadsheet) (now : Int)
    (sheet_name : String) (h : ∀ m ∈ g.members, m.bot = true) :
    sync_members g sp now sheet_name = (sp, .nothingToSync) ∧
    (∀ e, SyncOutcome.nothingToSync ≠ SyncOutcome.failure e) := by
  constructor
  · have hf : g.members.filter (fun m => !m.bot) = [] := by
      rw [List.filter_eq_nil_iff]
      intro a ha
      simp [h a ha]
    have hempty : (get_member_data g now).1.isEmpty = true := by
      show ((g.members.filter (fun m => !m.bot)).map _).isEmpty = true
      rw [hf]
      rfl
    simp [sync_members, hempty]
  · intro e he
    simp at he

/-- Witness for the amended C8: Scenario B at the concrete all-bot
guild. -/
theorem nothing_to_sync_spec_witness :
    (∀ m ∈ guildBots.members, m.bot = true) ∧
    (sync_members guildBots sheetBenji 0 "Benji"
        = (sheetBenji, .nothingToSync) ∧
     (∀ e, SyncOutcome.nothingToSync ≠ SyncOutcome.failure e)) :=
  ⟨by decide, nothing_to_sync_spec guildBots sheetBenji 0 "Benji" (by decide)⟩

/-! ## C10: the guild is never mutated -/

/-- Updating one titled sheet preserves the spreadsheet's title row. -/
theorem updateSheet_titles (name : String) (f : Sheet → Sheet)
    (sp : Spreadsheet) :
    (updateSheet name f sp).sheets.map Prod.fst = sp.sheets.map Prod.fst := by
  show (sp.sheets.map (fun p => if p.1 = name then (p.1, f p.2) else p)).map
      Prod.fst = sp.sheets.map Prod.fst
  rw [List.map_map]
  apply List.map_congr_left
  intro p hp
  by_cases h : p.1 = name <;> simp [h]

/-- Updating one titled sheet leaves every differently-titled sheet entry
untouched. -/
theorem updateSheet_get?_of_ne (name : String) (f : Sheet → Sheet)
    (sp : Spreadsheet) (i : Nat) (p : String × Sheet)
    (hp : sp.sheets.get? i = some p) (hne : p.1 ≠ name) :
    (updateSheet name f sp).sheets.get? i = some p := by
  show (sp.sheets.map (fun q => if q.1 = name then (q.1, f q.2) else q)).get? i
      = some p
  rw [List.get?_eq_getElem?] at hp ⊢
  rw [List.getElem?_map, hp]
  simp [hne]

/-- Every spreadsheet a sync invocation can return is either the input
spreadsheet or the input with the target sheet transformed twice (clear,
then write). -/
theorem sync_members_sp_shape (g : Guild) (sp : Spreadsheet) (now : Int)
    (sheet_name : String) :
    (sync_members g sp now sheet_name).1 = sp ∨
    ∃ f1 f2, (sync_members g sp now sheet_name).1
        = updateSheet sheet_name f2 (updateSheet sheet_name f1 sp) := by
  cases he : (get_member_data g now).1.isEmpty
  · cases hex : sp.sheets.any (fun p => p.1 == sheet_name)
    · left
      simp [sync_members, he, write_member_data, clear_sheet, hex]
    · right
      refine ⟨clearAtoZ, updateAtA1
        (dataRows (get_member_data g now).1 (get_member_data g now).2), ?_⟩
      simp [sync_members, he, write_member_data, clear_sheet, hex]
  · left
    simp [sync_members, he]

/-- C10: a sync invocation never mutates the guild it reads — the guild
component of the world state is unchanged — and the only spreadsheet
entries it can change are those titled with the target sheet name: the
title row is preserved and every differently-titled sheet entry is
untouched. -/
theorem sync_frame_spec (w : WorldState) (now : Int) (sheet_name : String) :
    ((sync_world w now sheet_name).1.guild = w.guild) ∧
    ((sync_world w now sheet_name).1.spreadsheet.sheets.map Prod.fst
        = w.spreadsheet.sheets.map Prod.fst) ∧
    (∀ i p, w.spreadsheet.sheets.get? i = some p → p.1 ≠ sheet_name →
      (sync_world w now sheet_name).1.spreadsheet.sheets.get? i = some p) := by
  have hsp : (sync_world w now sheet_name).1.spreadsheet
      = (sync_members w.guild w.spreadsheet now sheet_name).1 := rfl
  refine ⟨rfl, ?_, ?_⟩
  · rw [hsp]
    rcases sync_members_sp_shape w.guild w.spreadsheet now sheet_name with
      h | ⟨f1, f2, h⟩
    · rw [h]
    · rw [h, updateSheet_titles, updateSheet_titles]
  · intro i p hp hne
    rw [hsp]
    rcases sync_members_sp_shape w.guild w.spreadsheet now sheet_name with
      h | ⟨f1, f2, h⟩
    · rw [h]
      exact hp
    · rw [h]
      exact updateSheet_get?_of_ne _ _ _ i p
        (updateSheet_get?_of_ne _ _ _ i p hp hne) hne

/-- World with a two-member guild and two sheets, one of them the
target. -/
def worldW : WorldState :=
  { guild := guild0,
    spreadsheet := ⟨[("Benji", emptySheet), ("Other", emptySheet)]⟩ }

/-- Witness for C10 at a concrete world: the guild is unchanged and the
non-target sheet entry survives the sync. -/
theorem sync_frame_spec_witness :
    worldW.spreadsheet.sheets.get? 1 = some ("Other", emptySheet) ∧
    ("Other" : String) ≠ "Benji" ∧
    (sync_world worldW 0 "Benji").1.guild = worldW.guild ∧
    (sync_world worldW 0 "Benji").1.spreadsheet.sheets.get? 1
      = some ("Other", emptySheet) :=
  ⟨rfl, by decide,
   (sync_frame_spec worldW 0 "Benji").1,
   (sync_frame_spec worldW 0 "Benji").2.2 1 ("Other", emptySheet) rfl
     (by decide)⟩

end BeanBot
